import Mathlib

/-!
Verification of the freshness-synchronization and warm-up-reconciliation
state machine of the twitch-analyzer frontend (the `Home` component with
warm-up handling: `checkStatus`, `fetchData`, and the four timer effects).

The embedding translates the TypeScript source directly:
  * `AnalyzeBody`, `StatusData` mirror the wire interfaces;
  * `fetchData` and `checkStatus` are the two `useCallback` bodies, made
    pure by passing the transport outcome (`FetchResult` / `StatusResult`)
    and the component state (`HomeState`) explicitly;
  * the timer effects (countdown, warm-up poll, 60-second drift timer)
    become guarded events of a small transition system (`SysState`,
    `stepEvent`), with the effect guards of the source as enabling
    conditions and the React cleanup-on-dependency-change as the
    reconciliation step of the polling model (`PollSys`).
-/

namespace TwitchAnalyzer

/-- Purchase links attached to one opportunity (interface `purchase_links`). -/
structure PurchaseLinks where
  steam : Option String
  epic : Option String
  free : Bool
deriving Repr

/-- One ranked entry, mirroring interface `GameOpportunity`. -/
structure GameOpportunity where
  rank : Nat
  game_name : String
  total_viewers : Nat
  channels : Nat
  avg_viewers_per_channel : Float
  discoverability_score : Float
  viability_score : Float
  engagement_score : Float
  overall_score : Float
  recommendation : String
  trend : String
  box_art_url : Option String
  purchase_links : PurchaseLinks
deriving Repr

/-- Body of a `/api/v1/analyze` response, mirroring interface `AnalysisData`
plus the `status` discriminator field that `fetchData` inspects
(`response.data.status === "warming_up"`). -/
structure AnalyzeBody where
  status : Option String
  timestamp : String
  total_games_analyzed : Nat
  top_opportunities : List GameOpportunity
  cache_expires_in_seconds : Option Nat
  next_refresh_in_seconds : Option Nat
  next_update : String
  is_refreshing : Option Bool
deriving Repr

/-- A transport-success response: HTTP status plus parsed body
(`response.status`, `response.data`). -/
structure AnalyzeResponse where
  httpStatus : Nat
  data : AnalyzeBody
deriving Repr

/-- The response attached to a thrown axios error, as far as `fetchData`
inspects it: `err.response?.status` and `err.response?.data?.status`. -/
structure ErrResponse where
  status : Nat
  dataStatus : Option String
deriving Repr

/-- Outcome of one `axios.get` on `/api/v1/analyze`: transport success with
a response, or a thrown error optionally carrying a response. -/
inductive FetchResult where
  | success (resp : AnalyzeResponse)
  | failure (resp : Option ErrResponse)
deriving Repr

/-- Body of a `/api/v1/status` response, mirroring interface `StatusData`
(fields flattened: `cache.has_data`, `cache.age_seconds`,
`cache.next_refresh_seconds`, `worker.is_refreshing`). -/
structure StatusData where
  has_data : Bool
  age_seconds : Option Int
  next_refresh_seconds : Int
  is_refreshing : Bool
deriving Repr

/-- Outcome of one `axios.get` on `/api/v1/status`. -/
inductive StatusResult where
  | success (st : StatusData)
  | failure
deriving Repr

/-- State hooks of the `Home` component that the refresh machine touches:
`data`, `loading`, `error`, `countdown`, `isWarmingUp`, `warmupStatus`.
`countdown` is an `Int` so that non-negativity is a provable property,
not a typing artifact. -/
structure HomeState where
  data : Option AnalyzeBody
  loading : Bool
  error : Option String
  countdown : Int
  isWarmingUp : Bool
  warmupStatus : String
deriving Repr

/-- Interval selection: `const refreshSeconds = response.data.next_refresh_in_seconds ??
response.data.cache_expires_in_seconds ?? 600` (fetchData, countdown
reset). -/
def refreshSeconds (body : AnalyzeBody) : Nat :=
  body.next_refresh_in_seconds.getD (body.cache_expires_in_seconds.getD 600)

/-- The not-ready test on a transport-success response:
`response.status === 202 || response.data.status === "warming_up"`. -/
def notReadySuccess (resp : AnalyzeResponse) : Bool :=
  resp.httpStatus == 202 || resp.data.status == some "warming_up"

/-- The not-ready test in the catch branch:
`err.response?.status === 202 || err.response?.data?.status === "warming_up"`
(false when the error carries no response). -/
def notReadyError : Option ErrResponse → Bool
  | none => false
  | some r => r.status == 202 || r.dataStatus == some "warming_up"

/-- A fetch outcome signals "not ready" (any of the three encodings the
source checks: dedicated 202 status, `status == "warming_up"` in the
success body, or the same markers on the response attached to a thrown error). -/
def notReady : FetchResult → Bool
  | .success resp => notReadySuccess resp
  | .failure e => notReadyError e

/-- The `fetchData` callback as a state transformer. Input: the current
component state and the transport outcome of
`axios.get(API_URL + "/api/v1/analyze?limit=500")`. Output: the state after
all `set*` calls (including the `finally { setLoading(false) }`) and the
boolean `fetchData` returns. -/
def fetchData (s : HomeState) (r : FetchResult) : HomeState × Bool :=
  let s1 := { s with loading := true }
  match r with
  | .success resp =>
    if notReadySuccess resp then
      ({ s1 with isWarmingUp := true, data := none, loading := false }, false)
    else
      ({ s1 with isWarmingUp := false
               , data := some resp.data
               , error := none
               , countdown := (refreshSeconds resp.data : Int)
               , loading := false }, true)
  | .failure e =>
    if notReadyError e then
      ({ s1 with isWarmingUp := true, data := none, loading := false }, false)
    else
      ({ s1 with error := some "Failed to load data. Please try again later."
               , loading := false }, false)

/-- The `checkStatus` callback as a state transformer: the warm-up progress
message it selects and the boolean it returns. The catch branch handles a
transport failure, so the function is total: no outcome escapes as an
exception. -/
def checkStatus (s : HomeState) (r : StatusResult) : HomeState × Bool :=
  match r with
  | .success st =>
    if st.is_refreshing then
      ({ s with warmupStatus := "Fetching stream data from Twitch API..." }, false)
    else if st.has_data then
      ({ s with warmupStatus := "Data ready!" }, true)
    else
      ({ s with warmupStatus := "Waiting for initial data fetch..." }, false)
  | .failure =>
    ({ s with warmupStatus := "Connecting to server..." }, false)

/-- One run of the warm-up poll body (`pollStatus` inside the warm-up
effect): `checkStatus`, then `fetchData` exactly when it returned true.
Also returns how many `fetchData` calls were issued. -/
def pollStatusRun (s : HomeState) (st : StatusResult) (fr : FetchResult) :
    HomeState × Nat :=
  let c := checkStatus s st
  if c.2 then ((fetchData c.1 fr).1, 1) else (c.1, 0)

/-- The handler the RETRY button of the error screen invokes
(`<button onClick={fetchData}>`). -/
def retryHandler : HomeState → FetchResult → HomeState × Bool := fetchData

/-- The handler the initial-load effect invokes (`useEffect(() => {
fetchData() }, [fetchData])`). -/
def initialLoadHandler : HomeState → FetchResult → HomeState × Bool := fetchData

/-! ## Timer transition system

The three refresh triggers of the `Home` component as guarded events over
the component state plus bookkeeping of outstanding requests. Launching a
fetch and its completion are separate events, as in the source, where
`fetchData()` starts an async request whose `set*` calls run when the
response arrives. -/

/-- Component state plus request bookkeeping: `inFlight` counts analyze
requests started and not yet resolved, `totalFetches` counts all
`fetchData` invocations, `cdFetches` those issued by the countdown tick. -/
structure SysState where
  home : HomeState
  inFlight : Nat
  totalFetches : Nat
  cdFetches : Nat
deriving Repr

/-- The one-second countdown callback
(`setCountdown(prev => prev <= 1 ? (fetchData(), 0) : prev - 1)`):
the new countdown value and whether a fetch was launched. -/
def countdownTickFn (prev : Int) : Int × Bool :=
  if prev ≤ 1 then (0, true) else (prev - 1, false)

/-- Guard of the countdown effect: `if (!data || countdown <= 0) return` —
the interval exists only when data is present and the countdown is
positive. -/
def tickEnabled (s : SysState) : Bool :=
  s.home.data.isSome && 0 < s.home.countdown

/-- Guard of the 60-second drift-correction effect: `if (!data) return`. -/
def driftEnabled (s : SysState) : Bool :=
  s.home.data.isSome

/-- Launching `fetchData()`: synchronously `setLoading(true)`, one more
request in flight. No in-flight guard exists in the source. -/
def launchFetch (s : SysState) : SysState :=
  { s with home := { s.home with loading := true }
         , inFlight := s.inFlight + 1
         , totalFetches := s.totalFetches + 1 }

/-- A countdown tick firing (only possible while the interval exists):
apply the callback; when it hits zero it also launches a fetch. -/
def applyTick (s : SysState) : SysState :=
  let t := countdownTickFn s.home.countdown
  let s' := { s with home := { s.home with countdown := t.1 } }
  if t.2 then
    { (launchFetch s') with cdFetches := s'.cdFetches + 1 }
  else s'

/-- The drift-correction timer firing: launch a fetch unconditionally
(`setInterval(() => { fetchData() }, 60 * 1000)`). -/
def applyDrift (s : SysState) : SysState :=
  launchFetch s

/-- An in-flight analyze request resolving with outcome `r`: run the rest
of `fetchData` on the current state. -/
def applyComplete (s : SysState) (r : FetchResult) : SysState :=
  { s with home := (fetchData s.home r).1, inFlight := s.inFlight - 1 }

/-- One warm-up poll tick resolving with status outcome `st` and, when a
fetch is issued, analyze outcome `fr` (launch and completion fused). -/
def applyPoll (s : SysState) (st : StatusResult) (fr : FetchResult) : SysState :=
  let p := pollStatusRun s.home st fr
  { s with home := p.1, totalFetches := s.totalFetches + p.2 }

/-- The interleaved events of the scheduler. -/
inductive Event where
  | tick
  | drift
  | poll (st : StatusResult) (fr : FetchResult)
  | complete (r : FetchResult)

/-- One scheduler step: an event fires only when the guard of its effect holds;
a timer whose effect returned without installing it cannot fire, and a
completion needs an outstanding request. -/
def stepEvent (e : Event) (s : SysState) : SysState :=
  match e with
  | .tick => if tickEnabled s then applyTick s else s
  | .drift => if driftEnabled s then applyDrift s else s
  | .poll st fr => if s.home.isWarmingUp then applyPoll s st fr else s
  | .complete r => if 0 < s.inFlight then applyComplete s r else s

/-- States reachable from `s₀` by any interleaving of the events. -/
inductive Reachable (s₀ : SysState) : SysState → Prop where
  | refl : Reachable s₀ s₀
  | step (e : Event) {s : SysState} : Reachable s₀ s → Reachable s₀ (stepEvent e s)

/-- Countdown ticks alone, as long as the interval stays installed: the
trace between a reset and the next reset, with no other trigger firing. -/
def tickIter : Nat → SysState → SysState
  | 0, s => s
  | k + 1, s => tickIter k (stepEvent .tick s)

/-! ## Warm-up polling lifecycle

The warm-up effect (`useEffect(... , [isWarmingUp, checkStatus, fetchData])`)
installs the 3-second interval exactly when `isWarmingUp` is true and its
cleanup clears it when the dependency changes or the component unmounts.
`reconcilePoll` is that install-or-clear decision; `pstep` lets the
interval fire only while installed. -/

structure PollSys where
  mounted : Bool
  warming : Bool
  timerActive : Bool
  polls : Nat
deriving Repr

/-- The effect body plus cleanup: after a commit the interval exists iff
the component is mounted and `isWarmingUp` holds (`if (!isWarmingUp)
return`, `return () => clearInterval(interval)`). -/
def reconcilePoll (mounted warming : Bool) : Bool :=
  mounted && warming

inductive PEvent where
  | setWarming (b : Bool)
  | unmount
  | pollTick

/-- Lifecycle steps: a `setIsWarmingUp` commit re-runs the effect
(cleanup, then conditional reinstall); unmounting runs the cleanup; a
cleared interval cannot fire. -/
def pstep (e : PEvent) (p : PollSys) : PollSys :=
  match e with
  | .setWarming b =>
    { p with warming := b, timerActive := reconcilePoll p.mounted b }
  | .unmount => { p with mounted := false, timerActive := false }
  | .pollTick => if p.timerActive then { p with polls := p.polls + 1 } else p

inductive PReachable (p₀ : PollSys) : PollSys → Prop where
  | refl : PReachable p₀ p₀
  | step (e : PEvent) {p : PollSys} : PReachable p₀ p → PReachable p₀ (pstep e p)

/-! ## Concrete fixtures used by witnesses and counterexamples -/

/-- A concrete non-warming analyze body carrying both interval fields. -/
def bodyEx : AnalyzeBody :=
  { status := none
  , timestamp := "2024-01-01T00:00:00Z"
  , total_games_analyzed := 3
  , top_opportunities := []
  , cache_expires_in_seconds := some 300
  , next_refresh_in_seconds := some 120
  , next_update := "in 2 minutes"
  , is_refreshing := some false }

/-- A concrete component state holding an accepted snapshot, countdown 1. -/
def sReadyEx : HomeState :=
  { data := some bodyEx
  , loading := false
  , error := none
  , countdown := 1
  , isWarmingUp := false
  , warmupStatus := "Initializing..." }

/-- A concrete warming-up component state. -/
def sWarmEx : HomeState :=
  { data := none
  , loading := false
  , error := none
  , countdown := 0
  , isWarmingUp := true
  , warmupStatus := "Initializing..." }

/-- Scheduler state for the ready fixture: no request outstanding. -/
def sysReadyEx : SysState :=
  { home := sReadyEx, inFlight := 0, totalFetches := 0, cdFetches := 0 }

/-- A status body reporting both `has_data` and `is_refreshing`. -/
def stBothEx : StatusData :=
  { has_data := true
  , age_seconds := some 10
  , next_refresh_seconds := 600
  , is_refreshing := true }

/-- A status body reporting `has_data` with the worker idle. -/
def stDataEx : StatusData :=
  { has_data := true
  , age_seconds := some 10
  , next_refresh_seconds := 600
  , is_refreshing := false }

/-- A mounted, warming polling lifecycle with the interval installed. -/
def pollInitEx : PollSys :=
  { mounted := true, warming := true, timerActive := true, polls := 0 }

/-! ## Shared lemmas -/

/-- On any not-ready outcome `fetchData` performs exactly the transition
`setIsWarmingUp(true); setData(null); setLoading(false)` and returns
false, leaving every other field of the state untouched. -/
theorem fetchData_notReady_eq (s : HomeState) (r : FetchResult)
    (h : notReady r = true) :
    fetchData s r =
      ({ s with isWarmingUp := true, data := none, loading := false }, false) := by
  cases r with
  | success resp =>
    simp only [notReady] at h
    simp [fetchData, h]
  | failure e =>
    simp only [notReady] at h
    simp [fetchData, h]

/-- `fetchData` never turns the countdown negative: the only write is the
reset to a natural-number interval. -/
theorem fetchData_countdown_nonneg (s : HomeState) (r : FetchResult)
    (h : 0 ≤ s.countdown) : 0 ≤ (fetchData s r).1.countdown := by
  cases r with
  | success resp =>
    by_cases hn : notReadySuccess resp = true
    · simp [fetchData, hn, h]
    · simp [fetchData, hn]
  | failure e =>
    by_cases hn : notReadyError e = true
    · simp [fetchData, hn, h]
    · simp [fetchData, hn, h]

/-- `checkStatus` writes only the warm-up message: the countdown is
untouched on every outcome. -/
theorem checkStatus_countdown_eq (s : HomeState) (r : StatusResult) :
    (checkStatus s r).1.countdown = s.countdown := by
  cases r with
  | success st =>
    by_cases h1 : st.is_refreshing = true
    · simp [checkStatus, h1]
    · by_cases h2 : st.has_data = true <;> simp [checkStatus, h1, h2]
  | failure => rfl

/-- A warm-up poll round keeps the countdown non-negative. -/
theorem pollStatusRun_countdown_nonneg (s : HomeState) (st : StatusResult)
    (fr : FetchResult) (h : 0 ≤ s.countdown) :
    0 ≤ (pollStatusRun s st fr).1.countdown := by
  by_cases hc : (checkStatus s st).2 = true
  · simpa [pollStatusRun, hc] using
      fetchData_countdown_nonneg (checkStatus s st).1 fr
        (by rw [checkStatus_countdown_eq]; exact h)
  · simp [pollStatusRun, hc, checkStatus_countdown_eq, h]

/-! ## Claims -/

/-- C1: every fetch outcome signalling not-ready through any of the three
encodings (HTTP 202; `status == "warming_up"` in a transport-success body;
202 or `status == "warming_up"` on the response attached to a thrown
transport error) produces the identical resulting state — isWarmingUp set
true, data set to null, loading cleared — with the error message left
untouched, and `fetchData` returns false. -/
theorem c1_notReady_encodings_identical (s : HomeState) (r : FetchResult)
    (h : notReady r = true) :
    fetchData s r =
        ({ s with isWarmingUp := true, data := none, loading := false }, false) ∧
      (fetchData s r).1.error = s.error ∧ (fetchData s r).2 = false := by
  refine ⟨fetchData_notReady_eq s r h, ?_, ?_⟩ <;>
    simp [fetchData_notReady_eq s r h]

/-- C1 witness: the 202-status encoding on the ready fixture. -/
theorem c1_witness :
    notReady (.success ⟨202, bodyEx⟩) = true ∧
      (fetchData sReadyEx (.success ⟨202, bodyEx⟩) =
          ({ sReadyEx with isWarmingUp := true, data := none, loading := false },
            false) ∧
        (fetchData sReadyEx (.success ⟨202, bodyEx⟩)).1.error = sReadyEx.error ∧
        (fetchData sReadyEx (.success ⟨202, bodyEx⟩)).2 = false) :=
  ⟨rfl, c1_notReady_encodings_identical sReadyEx (.success ⟨202, bodyEx⟩) rfl⟩

/-- C2: on a successful non-warming response the countdown is reset to
`refreshSeconds` of the body, and that selection takes
`next_refresh_in_seconds` when present (regardless of
`cache_expires_in_seconds`), else `cache_expires_in_seconds` when present,
else exactly 600 — a pure function of the response body. -/
theorem c2_interval_selection (s : HomeState) (resp : AnalyzeResponse)
    (h : notReadySuccess resp = false) :
    (fetchData s (.success resp)).1.countdown = (refreshSeconds resp.data : Int) ∧
      (∀ n, resp.data.next_refresh_in_seconds = some n →
        refreshSeconds resp.data = n) ∧
      (resp.data.next_refresh_in_seconds = none →
        ∀ m, resp.data.cache_expires_in_seconds = some m →
          refreshSeconds resp.data = m) ∧
      (resp.data.next_refresh_in_seconds = none →
        resp.data.cache_expires_in_seconds = none →
          refreshSeconds resp.data = 600) := by
  refine ⟨by simp [fetchData, h], ?_, ?_, ?_⟩
  · intro n hn; simp [refreshSeconds, hn]
  · intro h1 m hm; simp [refreshSeconds, h1, hm]
  · intro h1 h2; simp [refreshSeconds, h1, h2]

/-- C2 witness: the fixture body carries both fields and the newer one
(120) wins. -/
theorem c2_witness :
    notReadySuccess ⟨200, bodyEx⟩ = false ∧
      (fetchData sWarmEx (.success ⟨200, bodyEx⟩)).1.countdown =
        (refreshSeconds bodyEx : Int) ∧
      refreshSeconds bodyEx = 120 :=
  ⟨rfl, (c2_interval_selection sWarmEx ⟨200, bodyEx⟩ rfl).1,
    (c2_interval_selection sWarmEx ⟨200, bodyEx⟩ rfl).2.1 120 rfl⟩

/-- C7: a plain transport error (no 202 and no warming_up payload on the
attached response) while a snapshot is held sets the error message,
returns false, leaves the held snapshot untouched, and the RETRY handler
is the very function the initial-load effect invokes. -/
theorem c7_plain_error_retains_snapshot (s : HomeState) (e : Option ErrResponse)
    (hplain : notReadyError e = false) (snap : AnalyzeBody)
    (hd : s.data = some snap) :
    (fetchData s (.failure e)).1.error =
        some "Failed to load data. Please try again later." ∧
      (fetchData s (.failure e)).1.data = some snap ∧
      (fetchData s (.failure e)).2 = false ∧
      retryHandler = initialLoadHandler ∧ retryHandler = fetchData := by
  refine ⟨?_, ?_, ?_, rfl, rfl⟩ <;> simp [fetchData, hplain, hd]

/-- C7 witness: an error with no attached response against the ready
fixture. -/
theorem c7_witness :
    notReadyError none = false ∧ sReadyEx.data = some bodyEx ∧
      ((fetchData sReadyEx (.failure none)).1.error =
          some "Failed to load data. Please try again later." ∧
        (fetchData sReadyEx (.failure none)).1.data = some bodyEx ∧
        (fetchData sReadyEx (.failure none)).2 = false ∧
        retryHandler = initialLoadHandler ∧ retryHandler = fetchData) :=
  ⟨rfl, rfl, c7_plain_error_retains_snapshot sReadyEx none rfl bodyEx rfl⟩

/-- C8: for every status-poll outcome `checkStatus` returns (its catch
branch absorbs the transport failure) without touching the error state,
the held data, or the warming flag; on transport failure it selects the
"Connecting to server..." message and returns false. -/
theorem c8_checkStatus_never_escalates (s : HomeState) (r : StatusResult) :
    (checkStatus s r).1.error = s.error ∧
      (checkStatus s r).1.data = s.data ∧
      (checkStatus s r).1.isWarmingUp = s.isWarmingUp ∧
      (r = .failure →
        (checkStatus s r).1.warmupStatus = "Connecting to server..." ∧
          (checkStatus s r).2 = false) := by
  cases r with
  | success st =>
    refine ⟨?_, ?_, ?_, by intro h; cases h⟩ <;>
      · by_cases h1 : st.is_refreshing = true
        · simp [checkStatus, h1]
        · by_cases h2 : st.has_data = true <;> simp [checkStatus, h1, h2]
  | failure => exact ⟨rfl, rfl, rfl, fun _ => ⟨rfl, rfl⟩⟩

/-- C8 witness: a failing poll against the ready fixture. -/
theorem c8_witness :
    (checkStatus sReadyEx .failure).1.error = sReadyEx.error ∧
      (checkStatus sReadyEx .failure).1.data = sReadyEx.data ∧
      (checkStatus sReadyEx .failure).1.isWarmingUp = sReadyEx.isWarmingUp ∧
      (checkStatus sReadyEx .failure).1.warmupStatus = "Connecting to server..." ∧
      (checkStatus sReadyEx .failure).2 = false :=
  ⟨(c8_checkStatus_never_escalates sReadyEx .failure).1,
    (c8_checkStatus_never_escalates sReadyEx .failure).2.1,
    (c8_checkStatus_never_escalates sReadyEx .failure).2.2.1,
    (c8_checkStatus_never_escalates sReadyEx .failure).2.2.2 rfl⟩

/-- C10: whenever `fetchData` classifies an outcome as not-ready, it
discards a previously accepted snapshot — the stored data becomes null on
the transition into warming-up. -/
theorem c10_notReady_discards_snapshot (s : HomeState) (snap : AnalyzeBody)
    (_hd : s.data = some snap) (r : FetchResult) (h : notReady r = true) :
    (fetchData s r).1.data = none ∧ (fetchData s r).1.isWarmingUp = true := by
  constructor <;> simp [fetchData_notReady_eq s r h]

/-- C10 witness: warming_up discriminator in a transport-success body while
the ready fixture holds a snapshot. -/
theorem c10_witness :
    sReadyEx.data = some bodyEx ∧
      notReady (.success ⟨200, { bodyEx with status := some "warming_up" }⟩) = true ∧
      ((fetchData sReadyEx
            (.success ⟨200, { bodyEx with status := some "warming_up" }⟩)).1.data =
          none ∧
        (fetchData sReadyEx
            (.success ⟨200, { bodyEx with status := some "warming_up" }⟩)).1.isWarmingUp =
          true) :=
  ⟨rfl, rfl,
    c10_notReady_discards_snapshot sReadyEx bodyEx rfl
      (.success ⟨200, { bodyEx with status := some "warming_up" }⟩) rfl⟩

/-- C3 (refutation of the stated guard): `fetchData` carries no in-flight
guard, so when the 60-second drift timer fires and the countdown reaches
zero in the same second, two analyze requests are outstanding at once —
the second trigger is not a no-op. From the ready fixture (snapshot held,
countdown 1), drift then tick leaves inFlight = 2. -/
theorem c3_two_requests_in_flight :
    (stepEvent .tick (stepEvent .drift sysReadyEx)).inFlight = 2 ∧
      1 < (stepEvent .tick (stepEvent .drift sysReadyEx)).inFlight := by
  constructor
  · rfl
  · have h : (stepEvent .tick (stepEvent .drift sysReadyEx)).inFlight = 2 := rfl
    rw [h]; norm_num

/-- C4 counterexample: a status poll reporting has_data = true together
with is_refreshing = true issues no fetch — the is_refreshing branch of
`checkStatus` takes priority and returns false, so `pollStatusRun`
launches zero `fetchData` calls despite hasData being reported true. -/
theorem c4_counterexample :
    stBothEx.has_data = true ∧
      (pollStatusRun sWarmEx (.success stBothEx) (.success ⟨200, bodyEx⟩)).2 = 0 :=
  ⟨rfl, rfl⟩

/-- C4 (amended): whenever a status poll reports has_data = true with
is_refreshing = false, exactly one `fetchData` call is issued, and if that
call returns data (transport success, not warming up) the state becomes
ready: isWarmingUp false, the snapshot stored, and the countdown reset to
the refresh interval of the response. -/
theorem c4_poll_hasData_fetches (s : HomeState) (st : StatusData)
    (resp : AnalyzeResponse) (h1 : st.has_data = true)
    (h2 : st.is_refreshing = false) (h3 : notReadySuccess resp = false) :
    (pollStatusRun s (.success st) (.success resp)).2 = 1 ∧
      (pollStatusRun s (.success st) (.success resp)).1.isWarmingUp = false ∧
      (pollStatusRun s (.success st) (.success resp)).1.data = some resp.data ∧
      (pollStatusRun s (.success st) (.success resp)).1.countdown =
        (refreshSeconds resp.data : Int) := by
  have hc : checkStatus s (.success st) =
      ({ s with warmupStatus := "Data ready!" }, true) := by
    simp [checkStatus, h1, h2]
  refine ⟨?_, ?_, ?_, ?_⟩ <;> simp [pollStatusRun, hc, fetchData, h3]

/-- C4 witness: the idle-worker status fixture followed by a successful
fetch of the fixture body. -/
theorem c4_witness :
    stDataEx.has_data = true ∧ stDataEx.is_refreshing = false ∧
      notReadySuccess ⟨200, bodyEx⟩ = false ∧
      ((pollStatusRun sWarmEx (.success stDataEx) (.success ⟨200, bodyEx⟩)).2 = 1 ∧
        (pollStatusRun sWarmEx (.success stDataEx)
            (.success ⟨200, bodyEx⟩)).1.isWarmingUp = false ∧
        (pollStatusRun sWarmEx (.success stDataEx)
            (.success ⟨200, bodyEx⟩)).1.data = some bodyEx ∧
        (pollStatusRun sWarmEx (.success stDataEx)
            (.success ⟨200, bodyEx⟩)).1.countdown = (refreshSeconds bodyEx : Int)) :=
  ⟨rfl, rfl, rfl, c4_poll_hasData_fetches sWarmEx stDataEx ⟨200, bodyEx⟩ rfl rfl rfl⟩

/-- C5: from any start with a non-negative countdown, every state reachable
under any interleaving of the four events keeps the countdown non-negative,
and an enabled countdown tick decreases it by exactly one. -/
theorem c5_countdown_nonneg_unit_decrement (s₀ s : SysState)
    (h0 : 0 ≤ s₀.home.countdown) (hr : Reachable s₀ s) :
    0 ≤ s.home.countdown ∧
      (tickEnabled s = true →
        (stepEvent .tick s).home.countdown = s.home.countdown - 1) := by
  have hdec : ∀ t : SysState, tickEnabled t = true →
      (stepEvent .tick t).home.countdown = t.home.countdown - 1 := by
    intro t ht
    have hpos : 0 < t.home.countdown := by
      simp only [tickEnabled, Bool.and_eq_true, decide_eq_true_eq] at ht
      exact ht.2
    by_cases hle : t.home.countdown ≤ 1
    · have h1 : t.home.countdown = 1 := le_antisymm hle hpos
      simp [stepEvent, ht, applyTick, countdownTickFn, launchFetch, h1]
    · simp [stepEvent, ht, applyTick, countdownTickFn, launchFetch, hle]
  refine ⟨?_, hdec s⟩
  induction hr with
  | refl => exact h0
  | step e hrec ih =>
    rename_i t
    cases e with
    | tick =>
      by_cases ht : tickEnabled t = true
      · rw [hdec t ht]
        have hpos : 0 < t.home.countdown := by
          simp only [tickEnabled, Bool.and_eq_true, decide_eq_true_eq] at ht
          exact ht.2
        omega
      · simp [stepEvent, ht]; exact ih
    | drift =>
      by_cases hd : driftEnabled t = true <;>
        simp [stepEvent, hd, applyDrift, launchFetch] <;> exact ih
    | poll st fr =>
      by_cases hw : t.home.isWarmingUp = true
      · simpa [stepEvent, hw, applyPoll] using
          pollStatusRun_countdown_nonneg t.home st fr ih
      · simp [stepEvent, hw]; exact ih
    | complete r =>
      by_cases hf : 0 < t.inFlight
      · simpa [stepEvent, hf, applyComplete] using
          fetchData_countdown_nonneg t.home r ih
      · simp [stepEvent, hf]; exact ih

/-- C5 witness: the ready fixture itself is reachable and its countdown is
non-negative; the enabled tick takes it from 1 to 0. -/
theorem c5_witness :
    0 ≤ sysReadyEx.home.countdown ∧
      (tickEnabled sysReadyEx = true →
        (stepEvent .tick sysReadyEx).home.countdown =
          sysReadyEx.home.countdown - 1) :=
  c5_countdown_nonneg_unit_decrement sysReadyEx sysReadyEx (by decide)
    Reachable.refl

/-- C6: the tick that takes the countdown from 1 to 0 launches exactly one
countdown-driven fetch; at zero the countdown interval is no longer
installed, so any number of further countdown rounds changes nothing —
no additional fetch until a reset. -/
theorem c6_zero_triggers_once (s : SysState) (hd : s.home.data.isSome = true)
    (h1 : s.home.countdown = 1) :
    ((stepEvent .tick s).cdFetches = s.cdFetches + 1 ∧
      (stepEvent .tick s).home.countdown = 0) ∧
      (∀ t : SysState, t.home.countdown = 0 → tickEnabled t = false) ∧
      (∀ (k : Nat) (t : SysState), t.home.countdown = 0 →
        tickIter k t = t) := by
  have hstop : ∀ t : SysState, t.home.countdown = 0 → tickEnabled t = false := by
    intro t ht
    simp [tickEnabled, ht]
  refine ⟨?_, hstop, ?_⟩
  · have ht : tickEnabled s = true := by
      simp [tickEnabled, hd, h1]
    constructor <;>
      simp [stepEvent, ht, applyTick, countdownTickFn, launchFetch, h1]
  · intro k
    induction k with
    | zero => intro t _; rfl
    | succ k ih =>
      intro t ht
      have hfix : stepEvent .tick t = t := by
        simp [stepEvent, hstop t ht]
      calc tickIter (k + 1) t = tickIter k (stepEvent .tick t) := rfl
        _ = tickIter k t := by rw [hfix]
        _ = t := ih t ht

/-- C6 witness: the ready fixture (countdown 1, snapshot held). -/
theorem c6_witness :
    ((stepEvent .tick sysReadyEx).cdFetches = sysReadyEx.cdFetches + 1 ∧
      (stepEvent .tick sysReadyEx).home.countdown = 0) ∧
      (∀ t : SysState, t.home.countdown = 0 → tickEnabled t = false) ∧
      (∀ (k : Nat) (t : SysState), t.home.countdown = 0 → tickIter k t = t) :=
  c6_zero_triggers_once sysReadyEx rfl rfl

/-- C9: in every lifecycle state reachable from a reconciled start, the
3-second status interval is installed exactly when the component is
mounted and warming up; once isWarmingUp is false or the component is torn
down, a poll tick is impossible (the step is the identity). -/
theorem c9_polling_only_while_warming (p₀ p : PollSys)
    (h0 : p₀.timerActive = reconcilePoll p₀.mounted p₀.warming)
    (hr : PReachable p₀ p) :
    p.timerActive = reconcilePoll p.mounted p.warming ∧
      ((p.warming = false ∨ p.mounted = false) → pstep .pollTick p = p) := by
  have hinv : p.timerActive = reconcilePoll p.mounted p.warming := by
    induction hr with
    | refl => exact h0
    | step e hrec ih =>
      rename_i q
      cases e with
      | setWarming b => simp [pstep]
      | unmount => simp [pstep, reconcilePoll]
      | pollTick =>
        by_cases hq : q.timerActive = true <;> simp [pstep, hq] <;> rw [← ih]
        · exact hq
        · simpa using hq
  refine ⟨hinv, ?_⟩
  intro h
  have hoff : p.timerActive = false := by
    rcases h with h | h <;> simp [hinv, reconcilePoll, h]
  simp [pstep, hoff]

/-- C9 witness: leaving the warming state from the mounted, installed
fixture clears the interval and disables the tick. -/
theorem c9_witness :
    (pstep (.setWarming false) pollInitEx).timerActive =
        reconcilePoll (pstep (.setWarming false) pollInitEx).mounted
          (pstep (.setWarming false) pollInitEx).warming ∧
      (((pstep (.setWarming false) pollInitEx).warming = false ∨
          (pstep (.setWarming false) pollInitEx).mounted = false) →
        pstep .pollTick (pstep (.setWarming false) pollInitEx) =
          pstep (.setWarming false) pollInitEx) :=
  c9_polling_only_while_warming pollInitEx (pstep (.setWarming false) pollInitEx)
    rfl (PReachable.step (.setWarming false) PReachable.refl)

end TwitchAnalyzer
